import Mathlib

/-
Verification of the tfvars generator (generate_tfvars_interactive.py).

The development shallowly embeds the three pure components of the script:
the filter resolver (get_table_filter_columns), the config assembler
(the pure part of main together with generate_source_datasets_config) and
the renderer (generate_tfvars_content).  Python dicts are modelled as
insertion-ordered association lists, Python string truthiness as equality
with the empty string, and a dict key that may be missing as an Option.
Case mapping (str.lower, str.title) is modelled on the ASCII range, which
is the range exercised by the catalog and by the documented scenarios.
Literal single quotes and braces inside strings are written with \x27,
\x7b and \x7d escapes.
-/

/-- Join a list of strings with a separator, as Python sep.join(...). -/
def joinSep (sep : String) : List String → String
  | [] => ""
  | [x] => x
  | x :: xs => x ++ sep ++ joinSep sep xs

/-- One filter-column record as built by get_table_filter_columns. -/
structure FilterColumn where
  column_name : String
  condition : String
  operator : String
deriving DecidableEq

/-- The predefined table-to-filter mapping of get_table_filter_columns
(source lines 76-82), in its dict literal order. -/
def tableFilters : List (String × List String) :=
  [("users", ["account_name", "user_id", "status"]),
   ("transactions", ["client_id", "status", "region"]),
   ("events", ["account_name", "user_id"]),
   ("orders", ["client_id", "status"]),
   ("logs", ["account_name", "region"])]

/-- Condition text built from a value list (source lines 90-95): one value
gives an equality, otherwise an IN clause over the values in order. -/
def mkCondition : List String → String
  | [v] => "= \x27" ++ v ++ "\x27"
  | vs => "IN (\x27" ++ joinSep "\x27, \x27" vs ++ "\x27)"

/-- Embedding of get_table_filter_columns (source lines 72-103): for each
applicable column of the table, in catalog order, emit a FilterColumn when
the column has a non-empty value list in the global filters. -/
def get_table_filter_columns (table_name : String)
    (global_filters : List (String × List String)) : List FilterColumn :=
  let applicable_filters := (List.lookup table_name tableFilters).getD []
  applicable_filters.filterMap fun column_name =>
    match List.lookup column_name global_filters with
    | some values =>
        if values.isEmpty then none
        else some { column_name := column_name, condition := mkCondition values,
                    operator := "AND" }
    | none => none

/-- Claim C1: every FilterColumn emitted by the resolver has operator AND,
and its condition is determined solely by the cardinality of the matched
value list: a one-element list gives an equality condition, a list of two
or more values gives an IN clause over the values in their original order,
each wrapped in single quotes with no escaping. -/
theorem filter_condition_format (t : String) (gf : List (String × List String))
    (fc : FilterColumn) (h : fc ∈ get_table_filter_columns t gf) :
    fc.operator = "AND" ∧
    ∃ vs, List.lookup fc.column_name gf = some vs ∧
      ((∃ v, vs = [v] ∧ fc.condition = "= \x27" ++ v ++ "\x27") ∨
       (2 ≤ vs.length ∧
        fc.condition = "IN (\x27" ++ joinSep "\x27, \x27" vs ++ "\x27)")) := by
  simp only [get_table_filter_columns] at h
  rw [List.mem_filterMap] at h
  obtain ⟨c, _, hf⟩ := h
  split at hf
  next vs hl =>
    split at hf
    next => exact absurd hf (by simp)
    next hvs =>
      injection hf with hf
      subst hf
      refine ⟨rfl, vs, hl, ?_⟩
      cases vs with
      | nil => exact absurd rfl hvs
      | cons v rest =>
        cases rest with
        | nil => exact Or.inl ⟨v, rfl, rfl⟩
        | cons v2 r2 =>
          refine Or.inr ⟨?_, rfl⟩
          simp only [List.length_cons]
          omega
  next hl => exact absurd hf (by simp)

/-- Witness for C1 at the documented scenario: table orders with the
global filter status = [active, done]. -/
theorem filter_condition_format_witness :
    FilterColumn.operator
        ⟨"status", "IN (\x27active\x27, \x27done\x27)", "AND"⟩ = "AND" ∧
    ∃ vs, List.lookup
        (FilterColumn.column_name
          ⟨"status", "IN (\x27active\x27, \x27done\x27)", "AND"⟩)
        [("status", ["active", "done"])] = some vs ∧
      ((∃ v, vs = [v] ∧
          FilterColumn.condition
            ⟨"status", "IN (\x27active\x27, \x27done\x27)", "AND"⟩
            = "= \x27" ++ v ++ "\x27") ∨
       (2 ≤ vs.length ∧
        FilterColumn.condition
            ⟨"status", "IN (\x27active\x27, \x27done\x27)", "AND"⟩
            = "IN (\x27" ++ joinSep "\x27, \x27" vs ++ "\x27)")) :=
  filter_condition_format "orders" [("status", ["active", "done"])]
    ⟨"status", "IN (\x27active\x27, \x27done\x27)", "AND"⟩ (by decide)

/-- Claim C2: the resolver returns the empty list for a table outside the
catalog, and for a catalog table it emits exactly one FilterColumn per
applicable column, in catalog order, restricted to the columns that occur
in the global filters with a non-empty value list. -/
theorem resolver_catalog_shape (t : String)
    (gf : List (String × List String)) :
    (List.lookup t tableFilters = none → get_table_filter_columns t gf = []) ∧
    (∀ cols, List.lookup t tableFilters = some cols →
      List.map (fun fc => FilterColumn.column_name fc)
          (get_table_filter_columns t gf)
        = List.filter (fun c => !((List.lookup c gf).getD []).isEmpty) cols) := by
  constructor
  · intro h
    simp [get_table_filter_columns, h]
  · intro cols h
    simp only [get_table_filter_columns, h, Option.getD_some]
    clear h
    induction cols with
    | nil => simp
    | cons c cs ih =>
      simp only [List.filterMap_cons, List.filter_cons]
      cases hl : List.lookup c gf with
      | none => simpa [hl] using ih
      | some vs =>
        cases hvs : vs.isEmpty with
        | true => simpa [hl, hvs] using ih
        | false => simpa [hl, hvs] using ih

/-- Witness for C2: an unknown table yields no filters, and for the
catalog table orders with only a status filter the resolver emits exactly
the status column. -/
theorem resolver_catalog_shape_witness :
    get_table_filter_columns "not_in_catalog" [("status", ["active"])] = [] ∧
    List.map (fun fc => FilterColumn.column_name fc)
        (get_table_filter_columns "orders" [("status", ["active", "done"])])
      = ["status"] := by
  constructor
  · exact (resolver_catalog_shape "not_in_catalog"
      [("status", ["active"])]).1 (by decide)
  · have h := (resolver_catalog_shape "orders"
      [("status", ["active", "done"])]).2 ["client_id", "status"] (by decide)
    rw [h]
    decide

/-- Python str.lower for the ASCII range, applied characterwise. -/
def pyLower (s : String) : String := String.mk (s.data.map Char.toLower)

/-- Characterwise recursion behind pyTitle: a cased character that follows
a non-alphabetic character is uppercased, one that follows an alphabetic
character is lowercased, any other character is kept. -/
def pyTitleAux : Bool → List Char → List Char
  | _, [] => []
  | prevAlpha, c :: cs =>
      (if c.isAlpha then (if prevAlpha then c.toLower else c.toUpper) else c)
        :: pyTitleAux c.isAlpha cs

/-- Python str.title for the ASCII range. -/
def pyTitle (s : String) : String := String.mk (pyTitleAux false s.data)

/-- Python str.replace with a single-character pattern, the only form the
script uses (spaces and hyphens rewritten to underscores). -/
def pyReplaceChar (s : String) (c r : Char) : String :=
  String.mk (s.data.map fun x => if x = c then r else x)

/-- The space character. -/
def spaceChar : Char := Char.ofNat 32

/-- The hyphen character. -/
def hyphenChar : Char := Char.ofNat 45

/-- The underscore character. -/
def underscoreChar : Char := Char.ofNat 95

/-- The client label value (source line 305): client name lowercased with
spaces replaced by underscores. -/
def client_label (client_name : String) : String :=
  pyReplaceChar (pyLower client_name) spaceChar underscoreChar

/-- The client key (source line 295): client name lowercased with spaces
and hyphens replaced by underscores. -/
def client_key_of (client_name : String) : String :=
  pyReplaceChar (client_label client_name) hyphenChar underscoreChar

/-- One table entry of a source dataset configuration. -/
structure TableConfig where
  source_table_id : String
  view_name : String
  filter_columns : List FilterColumn
  additional_where : String
  description : String
deriving DecidableEq

/-- One source dataset entry; source_project_id is an Option because the
renderer checks for the presence of the key, not for a non-empty value. -/
structure SourceDatasetConfig where
  target_dataset_key : String
  source_project_id : Option String
  description : String
  tables : List (String × TableConfig)
deriving DecidableEq

/-- One output dataset entry (source lines 299-308). -/
structure OutputDatasetConfig where
  dataset_id : String
  description : String
  months_back : Int
  labels : List (String × String)
deriving DecidableEq

/-- The root configuration record assembled by main; view_pfx embeds the
view-prefix field of the script. -/
structure Config where
  project_id : String
  region : String
  view_pfx : String
  output_datasets_config : List (String × OutputDatasetConfig)
  source_datasets_config : List (String × SourceDatasetConfig)
deriving DecidableEq

/-- The predefined source structure of generate_source_datasets_config
(source lines 135-148): name, description and table list per dataset. -/
def predefined_structure : List (String × String × List String) :=
  [("raw_lake", "Raw data lake",
      ["users", "transactions", "events", "orders", "logs"]),
   ("analytics_raw", "Raw analytics data",
      ["user_behavior", "conversion_events", "page_tracking"]),
   ("transaction_raw", "Raw transaction data",
      ["payments", "refunds", "invoices"])]

/-- Embedding of generate_source_datasets_config (source lines 131-173). -/
def generate_source_datasets_config
    (global_filters : List (String × List String)) (client_key : String) :
    List (String × SourceDatasetConfig) :=
  predefined_structure.map fun entry =>
    match entry with
    | (dataset_name, descr, tbls) =>
        (dataset_name,
         { target_dataset_key := client_key,
           source_project_id := none,
           description := descr,
           tables := tbls.map fun table_name =>
             (table_name,
              { source_table_id := table_name,
                view_name := table_name,
                filter_columns := get_table_filter_columns table_name global_filters,
                additional_where := "",
                description := table_name ++ " filtered view" }) })

/-- One user-added output dataset request: its key, and the months-back
value when the user supplied one (none means the default applies). -/
structure OutputDatasetSpec where
  key : String
  months_back : Option Int
deriving DecidableEq

/-- The user input record consumed by the pure part of main: basics, the
client name, the primary dataset key when the user overrode the derived
default, the primary months-back value when supplied, and the extra output
datasets added in the loop. -/
structure UserInputRecord where
  project_id : String
  region : String
  view_pfx : String
  client_name : String
  primary_key : Option String
  primary_months_back : Option Int
  extra_datasets : List OutputDatasetSpec
deriving DecidableEq

/-- One output dataset record as built in main (lines 299-308 and
315-324): derived dataset_id, title-cased description and the three
labels. -/
def mkOutputDataset (dataset_key client_name : String)
    (months_back : Int) : OutputDatasetConfig :=
  { dataset_id := dataset_key ++ "_filtered",
    description := pyTitle dataset_key ++ (" filtered views for " ++ client_name),
    months_back := months_back,
    labels := [("environment", "production"),
               ("client", client_label client_name),
               ("team", dataset_key)] }

/-- Embedding of the pure assembly performed by main (source lines
277-332): the primary output dataset followed by the user-added ones, and
the catalog-driven source datasets keyed by the client key. -/
def assemble (u : UserInputRecord)
    (global_filters : List (String × List String)) : Config :=
  let client_key := client_key_of u.client_name
  let dataset_key := (u.primary_key).getD client_key
  { project_id := u.project_id,
    region := u.region,
    view_pfx := u.view_pfx,
    output_datasets_config :=
      (dataset_key,
        mkOutputDataset dataset_key u.client_name
          ((u.primary_months_back).getD 18))
        :: u.extra_datasets.map fun e =>
             (e.key, mkOutputDataset e.key u.client_name ((e.months_back).getD 18)),
    source_datasets_config :=
      generate_source_datasets_config global_filters client_key }

/-- One label line of the output section (source line 201). -/
def renderLabel (kv : String × String) : String :=
  "      " ++ (kv.1 ++ (" = \"" ++ (kv.2 ++ "\"")))

/-- The lines of one output dataset block (source lines 191-207). -/
def renderOutputDataset (kv : String × OutputDatasetConfig) : List String :=
  ["  \"" ++ (kv.1 ++ "\" = \x7b"),
   "    dataset_id  = \"" ++ ((kv.2).dataset_id ++ "\""),
   "    description = \"" ++ ((kv.2).description ++ "\""),
   "    months_back = " ++ toString (kv.2).months_back,
   "    labels = \x7b"]
  ++ List.map renderLabel (kv.2).labels
  ++ ["    \x7d", "  \x7d", ""]

/-- The lines of one filter-column block (source lines 239-247); the
operator line appears only when the operator differs from AND. -/
def renderFilterColumn (fc : FilterColumn) : List String :=
  ["          \x7b",
   "            column_name = \"" ++ (fc.column_name ++ "\""),
   "            condition   = \"" ++ (fc.condition ++ "\"")]
  ++ (if fc.operator = "AND" then []
      else ["            operator    = \"" ++ (fc.operator ++ "\"")])
  ++ ["          \x7d"]

/-- The lines of one table block (source lines 230-260); additional_where
and description lines appear only when the strings are non-empty. -/
def renderTable (kv : String × TableConfig) : List String :=
  ["      \"" ++ (kv.1 ++ "\" = \x7b"),
   "        source_table_id = \"" ++ ((kv.2).source_table_id ++ "\""),
   "        view_name      = \"" ++ ((kv.2).view_name ++ "\""),
   "        filter_columns = ["]
  ++ (List.map renderFilterColumn (kv.2).filter_columns).flatten
  ++ ["        ]"]
  ++ (if (kv.2).additional_where = "" then []
      else ["        additional_where = \"" ++ ((kv.2).additional_where ++ "\"")])
  ++ (if (kv.2).description = "" then []
      else ["        description     = \"" ++ ((kv.2).description ++ "\"")])
  ++ ["      \x7d", ""]

/-- The lines of one source dataset block (source lines 217-266); the
source_project_id line appears exactly when the field is present. -/
def renderSourceDataset (kv : String × SourceDatasetConfig) : List String :=
  ["  \"" ++ (kv.1 ++ "\" = \x7b"),
   "    target_dataset_key = \"" ++ ((kv.2).target_dataset_key ++ "\"")]
  ++ (match (kv.2).source_project_id with
      | some pid => ["    source_project_id  = \"" ++ (pid ++ "\"")]
      | none => [])
  ++ ["    description        = \"" ++ ((kv.2).description ++ "\""),
      "    tables = \x7b"]
  ++ (List.map renderTable (kv.2).tables).flatten
  ++ ["    \x7d", "  \x7d", ""]

/-- The full line list built by generate_tfvars_content (source lines
176-268). -/
def generate_tfvars_lines (c : Config) : List String :=
  ["# GCP Configuration",
   "project_id = \"" ++ (c.project_id ++ "\""),
   "region     = \"" ++ (c.region ++ "\""),
   "",
   "# View Configuration",
   "view_prefix = \"" ++ (c.view_pfx ++ "\""),
   "",
   "# Output Datasets Configuration",
   "output_datasets_config = \x7b"]
  ++ (List.map renderOutputDataset c.output_datasets_config).flatten
  ++ ["\x7d", "",
      "# Source Datasets and Tables Configuration",
      "source_datasets_config = \x7b"]
  ++ (List.map renderSourceDataset c.source_datasets_config).flatten
  ++ ["\x7d"]

/-- Embedding of generate_tfvars_content on a fully populated Config: the
lines joined with newlines (source line 270). -/
def generate_tfvars_content (c : Config) : String :=
  joinSep "\n" (generate_tfvars_lines c)

/-- A table entry as generated for a table with no applicable global
filters. -/
def tcEmpty (t : String) : TableConfig :=
  { source_table_id := t, view_name := t, filter_columns := [],
    additional_where := "", description := t ++ " filtered view" }

/-- Input record of the documented scenario with the months-back value
left to its default. -/
def acmeInputD : UserInputRecord :=
  { project_id := "my_project", region := "asia-northeast1",
    view_pfx := "filtered_", client_name := "Acme Co", primary_key := none,
    primary_months_back := none, extra_datasets := [] }

/-- Input record of the documented scenario with months-back entered
as 18. -/
def acmeInput : UserInputRecord :=
  { project_id := "my_project", region := "asia-northeast1",
    view_pfx := "filtered_", client_name := "Acme Co", primary_key := none,
    primary_months_back := some 18, extra_datasets := [] }

/-- The primary output dataset entry assembled for the Acme scenario. -/
def kvAcme : String × OutputDatasetConfig :=
  ("acme_co", mkOutputDataset "acme_co" "Acme Co" 18)

/-- Claim C3: every output dataset entry built by the assembler, the
primary entry and every user-added entry alike, carries exactly the three
labels environment (production), client (the lowercased, space-to-
underscore client name) and team (the dataset key of the entry). -/
theorem labels_exactly_three (u : UserInputRecord)
    (gf : List (String × List String)) (kv : String × OutputDatasetConfig)
    (h : kv ∈ (assemble u gf).output_datasets_config) :
    (kv.2).labels = [("environment", "production"),
                     ("client", client_label u.client_name),
                     ("team", kv.1)] := by
  simp only [assemble, List.mem_cons, List.mem_map] at h
  rcases h with h | ⟨e, _, h⟩
  · subst h
    simp [mkOutputDataset]
  · subst h
    simp [mkOutputDataset]

/-- Witness for C3 at the Acme scenario. -/
theorem labels_exactly_three_witness :
    (kvAcme.2).labels = [("environment", "production"),
                         ("client", client_label "Acme Co"),
                         ("team", kvAcme.1)] :=
  labels_exactly_three acmeInputD [] kvAcme (by decide)

/-- Claim C4: every source dataset entry of an assembled Config has its
target_dataset_key equal to the key derived from the client name
(lowercased, spaces and hyphens replaced by underscores), for all user
inputs, including runs where the user enters a different primary dataset
key. -/
theorem target_key_is_client_key (u : UserInputRecord)
    (gf : List (String × List String)) (kv : String × SourceDatasetConfig)
    (h : kv ∈ (assemble u gf).source_datasets_config) :
    (kv.2).target_dataset_key = client_key_of u.client_name := by
  simp only [assemble, generate_source_datasets_config, List.mem_map] at h
  obtain ⟨e, _, h⟩ := h
  rcases e with ⟨n, d, ts⟩
  subst h
  rfl

/-- An input whose user-entered primary dataset key differs from the
client-derived key. -/
def uC4 : UserInputRecord :=
  { project_id := "p", region := "r", view_pfx := "v",
    client_name := "Acme-Co X", primary_key := some "custom_primary",
    primary_months_back := some 7, extra_datasets := [] }

/-- The raw_lake source dataset entry assembled for uC4. -/
def dsRawLake : String × SourceDatasetConfig :=
  ("raw_lake",
   { target_dataset_key := "acme_co_x", source_project_id := none,
     description := "Raw data lake",
     tables := ["users", "transactions", "events", "orders", "logs"].map
       fun t => (t, tcEmpty t) })

/-- Witness for C4: even with the overridden primary key custom_primary,
the raw_lake entry keeps the client-derived target key. -/
theorem target_key_is_client_key_witness :
    (dsRawLake.2).target_dataset_key = client_key_of "Acme-Co X" :=
  target_key_is_client_key uC4 [] dsRawLake (by decide)

/-- Claim C5: every output dataset entry derives dataset_id as the key
followed by _filtered and its description as the title-cased key followed
by filtered views for the client name; months_back defaults to 18 for the
primary entry and for user-added entries when left unspecified; and in the
Acme scenario the rendered output contains the dataset_id line for
acme_co_filtered, the unquoted months_back 18 line and the client label
line for acme_co. -/
theorem output_dataset_defaults (u : UserInputRecord)
    (gf : List (String × List String)) :
    (∀ kv ∈ (assemble u gf).output_datasets_config,
        (kv.2).dataset_id = kv.1 ++ "_filtered" ∧
        (kv.2).description
          = pyTitle kv.1 ++ (" filtered views for " ++ u.client_name)) ∧
    (u.primary_months_back = none →
        ∀ kv, ((assemble u gf).output_datasets_config).head? = some kv →
          (kv.2).months_back = 18) ∧
    (∀ e ∈ u.extra_datasets, e.months_back = none →
        (e.key, mkOutputDataset e.key u.client_name 18)
          ∈ (assemble u gf).output_datasets_config) ∧
    ("    dataset_id  = \"acme_co_filtered\""
        ∈ generate_tfvars_lines (assemble acmeInput []) ∧
     "    months_back = 18" ∈ generate_tfvars_lines (assemble acmeInput []) ∧
     "      client = \"acme_co\""
        ∈ generate_tfvars_lines (assemble acmeInput [])) := by
  refine ⟨?_, ?_, ?_, by decide, by decide, by decide⟩
  · intro kv h
    simp only [assemble, List.mem_cons, List.mem_map] at h
    rcases h with h | ⟨e, _, h⟩
    · subst h
      exact ⟨rfl, rfl⟩
    · subst h
      exact ⟨rfl, rfl⟩
  · intro h kv hh
    simp only [assemble, List.head?_cons, Option.some.injEq] at hh
    subst hh
    simp [mkOutputDataset, h]
  · intro e he hm
    simp only [assemble, List.mem_cons, List.mem_map]
    refine Or.inr ⟨e, he, ?_⟩
    rw [hm]
    rfl

/-- Witness for C5 at the Acme scenario: derived dataset_id and
description for the primary entry, and the defaulted months_back. -/
theorem output_dataset_defaults_witness :
    ((kvAcme.2).dataset_id = kvAcme.1 ++ "_filtered" ∧
     (kvAcme.2).description
       = pyTitle kvAcme.1 ++ (" filtered views for " ++ "Acme Co")) ∧
    (kvAcme.2).months_back = 18 :=
  ⟨(output_dataset_defaults acmeInputD []).1 kvAcme (by decide),
   (output_dataset_defaults acmeInputD []).2.1 rfl kvAcme (by decide)⟩

/-- A minimal concrete Config. -/
def cfgSmall : Config :=
  { project_id := "p", region := "r", view_pfx := "v",
    output_datasets_config := [], source_datasets_config := [] }

/-- Claim C7: assembly followed by rendering is deterministic; identical
input records and global filter sets produce identical output strings, and
the renderer is a pure function of the Config. -/
theorem assemble_render_deterministic (u1 u2 : UserInputRecord)
    (g1 g2 : List (String × List String)) (hu : u1 = u2) (hg : g1 = g2) :
    generate_tfvars_content (assemble u1 g1)
      = generate_tfvars_content (assemble u2 g2) ∧
    ∀ c1 c2 : Config, c1 = c2 →
      generate_tfvars_content c1 = generate_tfvars_content c2 := by
  subst hu
  subst hg
  exact ⟨rfl, fun c1 c2 h => by rw [h]⟩

/-- Witness for C7 at the Acme input and a small concrete Config. -/
theorem assemble_render_deterministic_witness :
    generate_tfvars_content (assemble acmeInput [])
      = generate_tfvars_content (assemble acmeInput []) ∧
    generate_tfvars_content cfgSmall = generate_tfvars_content cfgSmall :=
  ⟨(assemble_render_deterministic acmeInput acmeInput [] [] rfl rfl).1,
   (assemble_render_deterministic acmeInput acmeInput [] [] rfl rfl).2
     cfgSmall cfgSmall rfl⟩

/-- A configuration dict as the renderer receives it, with every
top-level key possibly missing, mirroring Python dict access: a plain
config[key] access raises KeyError when the key is absent, while region
and the view prefix are read with .get and a default. -/
structure RawConfig where
  project_id : Option String
  region : Option String
  view_pfx : Option String
  output_datasets_config : Option (List (String × OutputDatasetConfig))
  source_datasets_config : Option (List (String × SourceDatasetConfig))
deriving DecidableEq

/-- Embedding of generate_tfvars_content on a raw dict: a missing required
key raises (modelled as Except.error, in the order Python would raise),
otherwise the full text is produced with defaults for region and the view
prefix. -/
def generate_tfvars_contentD (c : RawConfig) : Except String String :=
  match c.project_id with
  | none => Except.error "KeyError: project_id"
  | some pid =>
    match c.output_datasets_config with
    | none => Except.error "KeyError: output_datasets_config"
    | some odc =>
      match c.source_datasets_config with
      | none => Except.error "KeyError: source_datasets_config"
      | some sdc =>
        Except.ok (generate_tfvars_content
          { project_id := pid,
            region := (c.region).getD "asia-northeast1",
            view_pfx := (c.view_pfx).getD "filtered_",
            output_datasets_config := odc,
            source_datasets_config := sdc })

/-- Claim C8: with the three required keys present the renderer returns a
complete string; with one missing it signals an error; and on any input it
returns either a complete string or an error, never a truncated text. The
renderer is a pure function, so it cannot mutate its argument. -/
theorem render_total_or_error (c : RawConfig) :
    ((c.project_id).isSome = true ∧ (c.output_datasets_config).isSome = true ∧
        (c.source_datasets_config).isSome = true →
      ∃ s, generate_tfvars_contentD c = Except.ok s) ∧
    (c.project_id = none ∨ c.output_datasets_config = none ∨
        c.source_datasets_config = none →
      ∃ e, generate_tfvars_contentD c = Except.error e) ∧
    ((∃ s, generate_tfvars_contentD c = Except.ok s) ∨
     (∃ e, generate_tfvars_contentD c = Except.error e)) := by
  obtain ⟨p, r, v, o, s⟩ := c
  cases p <;> cases o <;> cases s <;> simp [generate_tfvars_contentD]

/-- A raw config with the three required keys present and region and the
view prefix missing. -/
def rawFull : RawConfig :=
  { project_id := some "p", region := none, view_pfx := none,
    output_datasets_config := some [], source_datasets_config := some [] }

/-- A raw config missing the required project_id key. -/
def rawMissing : RawConfig :=
  { project_id := none, region := some "r", view_pfx := some "v",
    output_datasets_config := some [], source_datasets_config := some [] }

/-- Witness for C8: a complete string for a well-formed raw config, an
error for one missing project_id. -/
theorem render_total_or_error_witness :
    (∃ s, generate_tfvars_contentD rawFull = Except.ok s) ∧
    (∃ e, generate_tfvars_contentD rawMissing = Except.error e) :=
  ⟨(render_total_or_error rawFull).1 (by decide),
   (render_total_or_error rawMissing).2.1 (by decide)⟩

/-- Claim C10: a config lacking the region and view-prefix keys renders
without raising, with asia-northeast1 and filtered_ silently substituted;
presence of project_id and the two dataset maps suffices. -/
theorem render_defaults_missing_fields (pid : String)
    (odc : List (String × OutputDatasetConfig))
    (sdc : List (String × SourceDatasetConfig)) :
    generate_tfvars_contentD
        { project_id := some pid, region := none, view_pfx := none,
          output_datasets_config := some odc,
          source_datasets_config := some sdc }
      = Except.ok (generate_tfvars_content
          { project_id := pid, region := "asia-northeast1",
            view_pfx := "filtered_", output_datasets_config := odc,
            source_datasets_config := sdc }) := rfl

/-- String p is a prefix of string s, read on the character lists. -/
def strPfx (p s : String) : Prop := p.data <+: s.data

instance instDecStrPfx (p s : String) : Decidable (strPfx p s) := by
  unfold strPfx
  infer_instance

/-- A string cannot be a prefix of a concatenation when it already
disagrees with the fixed head on their common range. -/
theorem not_strPfx_concat (p hd tl : String)
    (hne : List.take (min p.data.length hd.data.length) p.data
         ≠ List.take (min p.data.length hd.data.length) hd.data) :
    ¬ strPfx p (hd ++ tl) := by
  intro hpre
  apply hne
  unfold strPfx at hpre
  rw [String.data_append] at hpre
  have h3 : List.take (min p.data.length hd.data.length) p.data
      <+: hd.data ++ tl.data := ( List.take_prefix _ _).trans hpre
  rw [List.prefix_iff_eq_take, List.length_take] at h3
  have hm : min (min p.data.length hd.data.length) p.data.length
      = min p.data.length hd.data.length := by omega
  rw [hm, List.take_append_of_le_length (by omega)] at h3
  exact h3

/-- No line of a filter-column block starts like a source_project_id, an
additional_where or a description assignment. -/
theorem renderFilterColumn_lines (fc : FilterColumn) (l : String)
    (hl : l ∈ renderFilterColumn fc) :
    ¬ strPfx "    source_project_id" l ∧
    ¬ strPfx "        additional_where" l ∧
    ¬ strPfx "        description" l := by
  by_cases hop : fc.operator = "AND"
  · simp only [renderFilterColumn, hop, if_pos, List.mem_append, List.mem_cons,
      List.not_mem_nil, or_false, List.append_nil] at hl
    rcases hl with (h | h | h) | h <;> subst h
    · exact ⟨by decide, by decide, by decide⟩
    · exact ⟨not_strPfx_concat _ _ _ (by decide),
             not_strPfx_concat _ _ _ (by decide),
             not_strPfx_concat _ _ _ (by decide)⟩
    · exact ⟨not_strPfx_concat _ _ _ (by decide),
             not_strPfx_concat _ _ _ (by decide),
             not_strPfx_concat _ _ _ (by decide)⟩
    · exact ⟨by decide, by decide, by decide⟩
  · simp only [renderFilterColumn, if_neg hop, List.mem_append, List.mem_cons,
      List.not_mem_nil, or_false] at hl
    rcases hl with ((h | h | h) | h) | h <;> subst h
    · exact ⟨by decide, by decide, by decide⟩
    · exact ⟨not_strPfx_concat _ _ _ (by decide),
             not_strPfx_concat _ _ _ (by decide),
             not_strPfx_concat _ _ _ (by decide)⟩
    · exact ⟨not_strPfx_concat _ _ _ (by decide),
             not_strPfx_concat _ _ _ (by decide),
             not_strPfx_concat _ _ _ (by decide)⟩
    · exact ⟨not_strPfx_concat _ _ _ (by decide),
             not_strPfx_concat _ _ _ (by decide),
             not_strPfx_concat _ _ _ (by decide)⟩
    · exact ⟨by decide, by decide, by decide⟩

/-- When the operator is the default AND, no line of the filter-column
block starts like an operator assignment. -/
theorem fc_op_omitted (fc : FilterColumn) (hop : fc.operator = "AND")
    (l : String) (hl : l ∈ renderFilterColumn fc) :
    ¬ strPfx "            operator" l := by
  simp only [renderFilterColumn, hop, if_pos, List.mem_append, List.mem_cons,
    List.not_mem_nil, or_false, List.append_nil] at hl
  rcases hl with (h | h | h) | h <;> subst h
  · decide
  · exact not_strPfx_concat _ _ _ (by decide)
  · exact not_strPfx_concat _ _ _ (by decide)
  · decide

/-- Table-block lines never start like a source_project_id assignment,
and start like an additional_where or table description assignment only
when the corresponding field is non-empty. -/
theorem renderTable_lines (kv : String × TableConfig) (l : String)
    (hl : l ∈ renderTable kv) :
    ¬ strPfx "    source_project_id" l ∧
    ((kv.2).additional_where = "" → ¬ strPfx "        additional_where" l) ∧
    ((kv.2).description = "" → ¬ strPfx "        description" l) := by
  simp only [renderTable, List.mem_append, List.mem_cons, List.not_mem_nil,
    or_false] at hl
  rcases hl with (((((h | h | h | h) | hF) | hB) | hIA) | hID) | h | h
  · subst h
    exact ⟨not_strPfx_concat _ _ _ (by decide),
           fun _ => not_strPfx_concat _ _ _ (by decide),
           fun _ => not_strPfx_concat _ _ _ (by decide)⟩
  · subst h
    exact ⟨not_strPfx_concat _ _ _ (by decide),
           fun _ => not_strPfx_concat _ _ _ (by decide),
           fun _ => not_strPfx_concat _ _ _ (by decide)⟩
  · subst h
    exact ⟨not_strPfx_concat _ _ _ (by decide),
           fun _ => not_strPfx_concat _ _ _ (by decide),
           fun _ => not_strPfx_concat _ _ _ (by decide)⟩
  · subst h
    exact ⟨by decide, fun _ => by decide, fun _ => by decide⟩
  · rw [List.mem_flatten] at hF
    obtain ⟨ll, hll, hmem⟩ := hF
    rw [List.mem_map] at hll
    obtain ⟨fc, _, rfl⟩ := hll
    obtain ⟨q1, q2, q3⟩ := renderFilterColumn_lines fc l hmem
    exact ⟨q1, fun _ => q2, fun _ => q3⟩
  · subst hB
    exact ⟨by decide, fun _ => by decide, fun _ => by decide⟩
  · split at hIA
    · exact absurd hIA (List.not_mem_nil l)
    next haw =>
      simp only [List.mem_cons, List.not_mem_nil, or_false] at hIA
      subst hIA
      exact ⟨not_strPfx_concat _ _ _ (by decide),
             fun hc => absurd hc haw,
             fun _ => not_strPfx_concat _ _ _ (by decide)⟩
  · split at hID
    · exact absurd hID (List.not_mem_nil l)
    next hdd =>
      simp only [List.mem_cons, List.not_mem_nil, or_false] at hID
      subst hID
      exact ⟨not_strPfx_concat _ _ _ (by decide),
             fun _ => not_strPfx_concat _ _ _ (by decide),
             fun hc => absurd hc hdd⟩
  · subst h
    exact ⟨by decide, fun _ => by decide, fun _ => by decide⟩
  · subst h
    exact ⟨by decide, fun _ => by decide, fun _ => by decide⟩

/-- Source-dataset-block lines: no line starts like a source_project_id
assignment when the field is absent, and no line starts like an
additional_where assignment when every table of the block has an empty
additional_where. -/
theorem renderSourceDataset_lines (kv : String × SourceDatasetConfig)
    (l : String) (hl : l ∈ renderSourceDataset kv) :
    ((kv.2).source_project_id = none → ¬ strPfx "    source_project_id" l) ∧
    ((∀ t ∈ (kv.2).tables, (t.2).additional_where = "") →
        ¬ strPfx "        additional_where" l) := by
  simp only [renderSourceDataset, List.mem_append, List.mem_cons,
    List.not_mem_nil, or_false] at hl
  rcases hl with ((((h | h) | hM) | h | h) | hF) | h | h | h
  · subst h
    exact ⟨fun _ => not_strPfx_concat _ _ _ (by decide),
           fun _ => not_strPfx_concat _ _ _ (by decide)⟩
  · subst h
    exact ⟨fun _ => not_strPfx_concat _ _ _ (by decide),
           fun _ => not_strPfx_concat _ _ _ (by decide)⟩
  · split at hM
    next pid heq =>
      simp only [List.mem_cons, List.not_mem_nil, or_false] at hM
      subst hM
      refine ⟨fun hnone => ?_, fun _ => not_strPfx_concat _ _ _ (by decide)⟩
      rw [hnone] at heq
      cases heq
    next => exact absurd hM (List.not_mem_nil l)
  · subst h
    exact ⟨fun _ => not_strPfx_concat _ _ _ (by decide),
           fun _ => not_strPfx_concat _ _ _ (by decide)⟩
  · subst h
    exact ⟨fun _ => by decide, fun _ => by decide⟩
  · rw [List.mem_flatten] at hF
    obtain ⟨ll, hll, hmem⟩ := hF
    rw [List.mem_map] at hll
    obtain ⟨t, ht, rfl⟩ := hll
    obtain ⟨q1, q2, _⟩ := renderTable_lines t l hmem
    exact ⟨fun _ => q1, fun hall => q2 (hall t ht)⟩
  · subst h
    exact ⟨fun _ => by decide, fun _ => by decide⟩
  · subst h
    exact ⟨fun _ => by decide, fun _ => by decide⟩
  · subst h
    exact ⟨fun _ => by decide, fun _ => by decide⟩

/-- A non-empty additional_where yields its line in the table block. -/
theorem mem_renderTable_aw (kv : String × TableConfig)
    (ha : ¬ (kv.2).additional_where = "") :
    ("        additional_where = \"" ++ ((kv.2).additional_where ++ "\""))
      ∈ renderTable kv := by
  simp [renderTable, ha]

/-- A non-empty table description yields its line in the table block. -/
theorem mem_renderTable_desc (kv : String × TableConfig)
    (hd : ¬ (kv.2).description = "") :
    ("        description     = \"" ++ ((kv.2).description ++ "\""))
      ∈ renderTable kv := by
  simp [renderTable, hd]

/-- A non-default operator yields its line in the filter-column block. -/
theorem mem_renderFC_op (fc : FilterColumn) (ho : ¬ fc.operator = "AND") :
    ("            operator    = \"" ++ (fc.operator ++ "\""))
      ∈ renderFilterColumn fc := by
  simp [renderFilterColumn, ho]

/-- A present source_project_id, empty or not, yields its line in the
source dataset block. -/
theorem mem_renderSrc_spid (kv : String × SourceDatasetConfig) (pid : String)
    (hs : (kv.2).source_project_id = some pid) :
    ("    source_project_id  = \"" ++ (pid ++ "\""))
      ∈ renderSourceDataset kv := by
  simp [renderSourceDataset, hs]

/-- Every line of a table block of a source dataset occurs among the
lines of that source dataset block. -/
theorem mem_table_sub (kv : String × SourceDatasetConfig)
    (t : String × TableConfig) (ht : t ∈ (kv.2).tables) (l : String)
    (hl : l ∈ renderTable t) : l ∈ renderSourceDataset kv := by
  unfold renderSourceDataset
  have h1 : l ∈ (List.map renderTable (kv.2).tables).flatten :=
    List.mem_flatten.mpr ⟨renderTable t, List.mem_map_of_mem _ ht, hl⟩
  exact List.mem_append_left _ (List.mem_append_right _ h1)

/-- Claim C6 (amended): additional_where and the per-table description are
emitted only when non-empty and the operator only when it differs from
AND, with an empty field producing no line at all; source_project_id,
however, is emitted whenever the field is present, even when its value is
the empty string, and produces no line only when absent. -/
theorem optional_fields_emission (fc : FilterColumn)
    (t : String × TableConfig) (d : String × SourceDatasetConfig) :
    ((t.2).additional_where = "" →
        ∀ l ∈ renderTable t, ¬ strPfx "        additional_where" l) ∧
    ((t.2).additional_where ≠ "" →
        ("        additional_where = \"" ++ ((t.2).additional_where ++ "\""))
          ∈ renderTable t) ∧
    ((t.2).description = "" →
        ∀ l ∈ renderTable t, ¬ strPfx "        description" l) ∧
    ((t.2).description ≠ "" →
        ("        description     = \"" ++ ((t.2).description ++ "\""))
          ∈ renderTable t) ∧
    (fc.operator = "AND" →
        ∀ l ∈ renderFilterColumn fc, ¬ strPfx "            operator" l) ∧
    (fc.operator ≠ "AND" →
        ("            operator    = \"" ++ (fc.operator ++ "\""))
          ∈ renderFilterColumn fc) ∧
    ((d.2).source_project_id = none →
        ∀ l ∈ renderSourceDataset d, ¬ strPfx "    source_project_id" l) ∧
    (∀ pid, (d.2).source_project_id = some pid →
        ("    source_project_id  = \"" ++ (pid ++ "\""))
          ∈ renderSourceDataset d) :=
  ⟨fun h l hl => (renderTable_lines t l hl).2.1 h,
   fun h => mem_renderTable_aw t h,
   fun h l hl => (renderTable_lines t l hl).2.2 h,
   fun h => mem_renderTable_desc t h,
   fun h l hl => fc_op_omitted fc h l hl,
   fun h => mem_renderFC_op fc h,
   fun h l hl => (renderSourceDataset_lines d l hl).1 h,
   fun pid h => mem_renderSrc_spid d pid h⟩

/-- A Config whose source dataset carries a present but empty
source_project_id. -/
def cfgC6 : Config :=
  { project_id := "p", region := "r", view_pfx := "v",
    output_datasets_config := [],
    source_datasets_config :=
      [("ds", { target_dataset_key := "t", source_project_id := some "",
                description := "d", tables := [] })] }

/-- Counterexample for C6 as stated: an empty (present) source_project_id
still produces a line in the rendered text, so an empty optional field
does not always produce no line. -/
theorem empty_spid_line_counterexample :
    "    source_project_id  = \"\"" ∈ generate_tfvars_lines cfgC6 := by
  decide

/-- A filter column with the default operator. -/
def fcAnd : FilterColumn :=
  { column_name := "c", condition := "= \x27x\x27", operator := "AND" }

/-- A filter column with a non-default operator. -/
def fcOr : FilterColumn :=
  { column_name := "c", condition := "= \x27x\x27", operator := "OR" }

/-- A table with empty additional_where and empty description. -/
def tcBare : TableConfig :=
  { source_table_id := "t", view_name := "t", filter_columns := [fcAnd],
    additional_where := "", description := "" }

/-- A table with a non-empty additional_where. -/
def tcAw : TableConfig :=
  { source_table_id := "t", view_name := "t", filter_columns := [],
    additional_where := "w > 1", description := "" }

/-- A source dataset without source_project_id. -/
def dsNone : String × SourceDatasetConfig :=
  ("d", { target_dataset_key := "k", source_project_id := none,
          description := "dd", tables := [] })

/-- A source dataset with a present source_project_id. -/
def dsSpid : String × SourceDatasetConfig :=
  ("d", { target_dataset_key := "k", source_project_id := some "sp",
          description := "dd", tables := [] })

/-- Witness for the amended C6 on concrete blocks: omitted lines for
empty fields and default operator, emitted lines otherwise. -/
theorem optional_fields_emission_witness :
    (¬ strPfx "        additional_where" "        source_table_id = \"t\"") ∧
    ("        additional_where = \"w > 1\"" ∈ renderTable ("t", tcAw)) ∧
    (¬ strPfx "        description" "      \"t\" = \x7b") ∧
    ("            operator    = \"OR\"" ∈ renderFilterColumn fcOr) ∧
    (¬ strPfx "            operator" "          \x7b") ∧
    (¬ strPfx "    source_project_id" "    target_dataset_key = \"k\"") ∧
    ("    source_project_id  = \"sp\"" ∈ renderSourceDataset dsSpid) :=
  ⟨(optional_fields_emission fcAnd ("t", tcBare) dsNone).1 rfl
      "        source_table_id = \"t\"" (by decide),
   (optional_fields_emission fcAnd ("t", tcAw) dsNone).2.1 (by decide),
   (optional_fields_emission fcAnd ("t", tcBare) dsNone).2.2.1 rfl
      "      \"t\" = \x7b" (by decide),
   (optional_fields_emission fcOr ("t", tcBare) dsNone).2.2.2.2.2.1 (by decide),
   (optional_fields_emission fcAnd ("t", tcBare) dsNone).2.2.2.2.1 rfl
      "          \x7b" (by decide),
   (optional_fields_emission fcAnd ("t", tcBare) dsNone).2.2.2.2.2.2.1 rfl
      "    target_dataset_key = \"k\"" (by decide),
   (optional_fields_emission fcAnd ("t", tcBare) dsSpid).2.2.2.2.2.2.2
      "sp" rfl⟩

/-- Claim C9: every source dataset built by the assembler carries no
source_project_id, every table has empty additional_where and the derived
description, and consequently each rendered source dataset block contains
a description line for every table and no line starting like a
source_project_id or additional_where assignment. -/
theorem source_datasets_fixed_fields (gf : List (String × List String))
    (ck : String) :
    (∀ kv ∈ generate_source_datasets_config gf ck,
        (kv.2).source_project_id = none ∧
        ∀ t ∈ (kv.2).tables,
          (t.2).additional_where = "" ∧
          (t.2).description = t.1 ++ " filtered view") ∧
    (∀ kv ∈ generate_source_datasets_config gf ck,
        (∀ t ∈ (kv.2).tables,
            ("        description     = \"" ++ ((t.2).description ++ "\""))
              ∈ renderSourceDataset kv) ∧
        ∀ l ∈ renderSourceDataset kv,
          ¬ strPfx "    source_project_id" l ∧
          ¬ strPfx "        additional_where" l) := by
  have hstruct : ∀ kv ∈ generate_source_datasets_config gf ck,
      (kv.2).source_project_id = none ∧
      ∀ t ∈ (kv.2).tables,
        (t.2).additional_where = "" ∧
        (t.2).description = t.1 ++ " filtered view" := by
    intro kv h
    simp only [generate_source_datasets_config, List.mem_map] at h
    obtain ⟨e, _, h⟩ := h
    rcases e with ⟨n, ds, ts⟩
    subst h
    refine ⟨rfl, ?_⟩
    intro t ht
    simp only [List.mem_map] at ht
    obtain ⟨tn, _, ht⟩ := ht
    subst ht
    exact ⟨rfl, rfl⟩
  refine ⟨hstruct, ?_⟩
  intro kv hkv
  have hsp := (hstruct kv hkv).1
  have haw : ∀ t ∈ (kv.2).tables, (t.2).additional_where = "" :=
    fun t ht => ((hstruct kv hkv).2 t ht).1
  constructor
  · intro t ht
    have hdesc : (t.2).description = t.1 ++ " filtered view" :=
      ((hstruct kv hkv).2 t ht).2
    have hne : ¬ (t.2).description = "" := by
      rw [hdesc]
      intro hcon
      have hlen := congrArg String.length hcon
      rw [String.length_append] at hlen
      have h14 : (" filtered view" : String).length = 14 := rfl
      have h0 : ("" : String).length = 0 := rfl
      rw [h14, h0] at hlen
      omega
    exact mem_table_sub kv t ht _ (mem_renderTable_desc t hne)
  · intro l hl
    exact ⟨(renderSourceDataset_lines kv l hl).1 hsp,
           (renderSourceDataset_lines kv l hl).2 haw⟩

/-- The users table entry of the raw_lake dataset with no filters. -/
def tUsers : String × TableConfig := ("users", tcEmpty "users")

/-- Witness for C9 on the raw_lake dataset generated with no global
filters: fixed fields, the description line of the users table in the
rendered block, and no source_project_id or additional_where start on the
target_dataset_key line. -/
theorem source_datasets_fixed_fields_witness :
    ((dsRawLake.2).source_project_id = none) ∧
    ((tUsers.2).additional_where = "") ∧
    ((tUsers.2).description = tUsers.1 ++ " filtered view") ∧
    (("        description     = \"" ++ ((tUsers.2).description ++ "\""))
        ∈ renderSourceDataset dsRawLake) ∧
    (¬ strPfx "    source_project_id" "    target_dataset_key = \"acme_co_x\"") ∧
    (¬ strPfx "        additional_where" "    target_dataset_key = \"acme_co_x\"") :=
  ⟨((source_datasets_fixed_fields [] "acme_co_x").1 dsRawLake (by decide)).1,
   (((source_datasets_fixed_fields [] "acme_co_x").1 dsRawLake (by decide)).2
      tUsers (by decide)).1,
   (((source_datasets_fixed_fields [] "acme_co_x").1 dsRawLake (by decide)).2
      tUsers (by decide)).2,
   ((source_datasets_fixed_fields [] "acme_co_x").2 dsRawLake (by decide)).1
      tUsers (by decide),
   (((source_datasets_fixed_fields [] "acme_co_x").2 dsRawLake (by decide)).2
      "    target_dataset_key = \"acme_co_x\"" (by decide)).1,
   (((source_datasets_fixed_fields [] "acme_co_x").2 dsRawLake (by decide)).2
      "    target_dataset_key = \"acme_co_x\"" (by decide)).2⟩
